import Mathlib

/-!
Shallow embedding of the astronomer-cosmos sources
(`src/providers/dbt/core/operators.py` and `src/cosmos/converter.py`)
and verification of the specification claims about them.

Python dictionaries used as environments are embedded as functions
`String → Option String` (`none` = key absent); the filesystem touched by
the operator is embedded as an explicit record of file contents, directory
flags and the `shutil.which("dbt")` lookup result.  Exceptions
(`AirflowException`, `AirflowSkipException`, `sys.exit`) are embedded as
the error side of `Except`.
-/

/-- A Python `dict[str, str]` environment: `none` means the key is absent. -/
abbrev Env := String → Option String

/-- Python `dict.update` / right-biased `|` merge: `overrides` wins on a
shared key, `base` supplies the rest. -/
def Env.update (base overrides : Env) : Env := fun k =>
  match overrides k with
  | some v => some v
  | none => base k

/-- A Python dict literal built from a list of key/value pairs (all the
dict literals in the source have pairwise distinct keys, so first-match
lookup agrees with dict semantics). -/
def Env.ofList (l : List (String × String)) : Env := fun k =>
  (l.find? (fun p => p.1 == k)).map Prod.snd

/-- The filesystem state visible to the operator: file contents by path,
directory flags by path, and the result of `shutil.which("dbt")`. -/
structure FileSystem where
  files : String → Option String
  dirs : String → Bool
  which_dbt : Option String

/-- `os.path.exists`: true when a file or a directory is present at `p`. -/
def FileSystem.path_exists (fs : FileSystem) (p : String) : Bool :=
  (fs.files p).isSome || fs.dirs p

/-- Result of `SubprocessHook.run_command`: the exit code and the captured
standard output. -/
structure SubprocessResult where
  exit_code : Int
  output : String

/-- The ways the operator code escapes: `AirflowSkipException`,
`AirflowException`, and `sys.exit` after a message printed on stderr. -/
inductive CosmosError where
  | airflowSkip (msg : String)
  | airflowException (msg : String)
  | systemExit (stderr : String) (code : Int)
deriving DecidableEq, Repr

/-- An Airflow connection record as read by `map_profile`
(`BaseHook().get_connection`): the type tag and the credential fields the
source accesses.  Airflow itself is external to this repository; only the
attributes the source reads are embedded. -/
structure Connection where
  conn_type : String
  host : String
  login : String
  password : String
  schema : String
  port : Int

/-- Field state of `DBTBaseOperator` after `__init__`
(operators.py lines 21-61), with the Python defaults.
`project_dir` is annotated `str` but the code guards it with
`is not None` (line 90), so it is embedded as `Option String`;
`base_cmd` and `schema` are annotated `str` and are embedded as `String`
(their `None` defaults are unusable downstream: `None` cannot be a
subprocess token or an environment value); `skip_exit_code` keeps the
meaningful `None` case (`Option Int`). -/
structure DBTBaseOperator where
  project_dir : Option String
  conn_id : String
  base_cmd : String
  select : Option String := none
  exclude : Option String := none
  selector : Option String := none
  vars : Option String := none
  models : Option String := none
  cache_selected_only : Bool := false
  no_version_check : Bool := false
  fail_fast : Bool := false
  quiet : Bool := false
  warn_error : Bool := false
  schema : String := ""
  env : Option Env := none
  append_env : Bool := false
  output_encoding : String := "utf-8"
  skip_exit_code : Option Int := some 99

/-- `DBTBaseOperator.get_env` (operators.py lines 68-86).
`system_env` stands for `os.environ.copy()` and `airflow_context_vars`
for `context_to_airflow_vars(context)` (both supplied by the outside
world).  When `self.env` is `None` the inherited environment is used;
otherwise the inherited environment is used only when `append_env` is
set (updated by the user map); finally the Airflow context variables are
written over the result. -/
def get_env (op : DBTBaseOperator) (system_env airflow_context_vars : Env) : Env :=
  let env := match op.env with
    | none => system_env
    | some e => if op.append_env then Env.update system_env e else e
  Env.update env airflow_context_vars

/-- `DBTBaseOperator.get_dbt_path` (operators.py lines 88-99):
`shutil.which("dbt") or "dbt"`, then existence and directory checks on
`project_dir` when it is not `None`. -/
def get_dbt_path (op : DBTBaseOperator) (fs : FileSystem) : Except CosmosError String :=
  let dbt_path := fs.which_dbt.getD "dbt"
  match op.project_dir with
  | none => .ok dbt_path
  | some p =>
    if fs.path_exists p = false then
      .error (.airflowException ("Can not find the project_dir: " ++ p))
    else if fs.dirs p = false then
      .error (.airflowException ("The project_dir " ++ p ++ " must be a directory"))
    else .ok dbt_path

/-- `DBTBaseOperator.exception_handling` (operators.py lines 101-109).
`self.skip_exit_code is not None and result.exit_code == self.skip_exit_code`
is exactly `skip_exit_code = some result.exit_code`; in that branch the
message interpolates `self.skip_exit_code`, which there equals the exit
code. -/
def exception_handling (skip_exit_code : Option Int) (result : SubprocessResult) :
    Except CosmosError Unit :=
  if skip_exit_code = some result.exit_code then
    .error (.airflowSkip
      ("dbt command returned exit code " ++ toString result.exit_code ++ ". Skipping."))
  else if result.exit_code ≠ 0 then
    .error (.airflowException
      ("dbt command failed. The command returned a non-zero exit code " ++
        toString result.exit_code ++ "."))
  else .ok ()

/-- `f"--{name.replace('_', '-')}"` (operators.py lines 124 and 138);
for a one-character pattern Python `str.replace` is the character map. -/
def dbt_flag_name (field : String) : String :=
  "--" ++ String.mk (field.data.map (fun c => if c = '_' then '-' else c))

/-- `DBTBaseOperator.add_global_flags` (operators.py lines 111-142): fold
over the declared value-carrying fields appending `--flag value` when the
field is not `None`, then over the boolean fields appending the bare flag
when the field is `True`. -/
def add_global_flags (op : DBTBaseOperator) : List String :=
  let global_flags : List (String × Option String) :=
    [("project_dir", op.project_dir), ("select", op.select), ("exclude", op.exclude),
      ("selector", op.selector), ("vars", op.vars), ("models", op.models)]
  let flags := global_flags.foldl (fun flags fv =>
    match fv.2 with
    | some value => flags ++ [dbt_flag_name fv.1, value]
    | none => flags) []
  let global_boolean_flags : List (String × Bool) :=
    [("no_version_check", op.no_version_check), ("cache_selected_only", op.cache_selected_only),
      ("fail_fast", op.fail_fast), ("quiet", op.quiet), ("warn_error", op.warn_error)]
  global_boolean_flags.foldl (fun flags fb =>
    if fb.2 then flags ++ [dbt_flag_name fb.1] else flags) flags

/-- `DBTBaseOperator.build_command` (operators.py lines 144-147):
`[dbt_path, self.base_cmd] + self.add_global_flags()`. -/
def build_command (op : DBTBaseOperator) (fs : FileSystem) : Except CosmosError (List String) :=
  match get_dbt_path op fs with
  | .error e => .error e
  | .ok dbt_path => .ok ([dbt_path, op.base_cmd] ++ add_global_flags op)

/-- The directory checked by `create_default_profiles` (operators.py line 177). -/
def profiles_directory : String := "/home/astro/.dbt"

/-- The file checked and possibly written by `create_default_profiles`
(operators.py line 178). -/
def profiles_file : String := "/home/astro/.dbt/profiles.yml"

/-- The serialized default postgres profile, `yaml.dump(profile)` of the
dict literal at operators.py lines 160-175 (keys in the sorted order
used by `yaml.dump`; literal braces and single quotes written as `\xNN` escapes). -/
def default_profiles_yaml : String :=
  "postgres_profile:\n" ++
  "  outputs:\n" ++
  "    dev:\n" ++
  "      dbname: \x27\x7b\x7b env_var(\x27\x27POSTGRES_DATABASE\x27\x27) \x7d\x7d\x27\n" ++
  "      host: \x27\x7b\x7b env_var(\x27\x27POSTGRES_HOST\x27\x27) \x7d\x7d\x27\n" ++
  "      pass: \x27\x7b\x7b env_var(\x27\x27POSTGRES_PASSWORD\x27\x27) \x7d\x7d\x27\n" ++
  "      port: \x27\x7b\x7b env_var(\x27\x27POSTGRES_PORT\x27\x27) | as_number \x7d\x7d\x27\n" ++
  "      schema: \x27\x7b\x7b env_var(\x27\x27POSTGRES_SCHEMA\x27\x27) \x7d\x7d\x27\n" ++
  "      type: postgres\n" ++
  "      user: \x27\x7b\x7b env_var(\x27\x27POSTGRES_USER\x27\x27) \x7d\x7d\x27\n" ++
  "  target: dev\n"

/-- The first block of `create_default_profiles` (operators.py lines
180-182): `os.makedirs(directory_path)` only when the directory path does
not exist. -/
def ensure_profiles_directory (fs : FileSystem) : FileSystem :=
  if fs.path_exists profiles_directory then fs
  else { fs with dirs := fun p => if p = profiles_directory then true else fs.dirs p }

/-- The second block of `create_default_profiles` (operators.py lines
184-191): write the default profile only when the file path does not
exist (the `open(..., "w")` is guarded by `not os.path.exists`). -/
def write_default_profiles_file (fs : FileSystem) : FileSystem :=
  if fs.path_exists profiles_file then fs
  else { fs with
    files := fun p => if p = profiles_file then some default_profiles_yaml else fs.files p }

/-- `DBTBaseOperator.create_default_profiles` (operators.py lines 159-191):
the two guarded blocks in source order. -/
def create_default_profiles (fs : FileSystem) : FileSystem :=
  write_default_profiles_file (ensure_profiles_directory fs)

/-- `DBTBaseOperator.map_profile` (operators.py lines 193-211): dispatch on
the type tag of the resolved connection; only `postgres` is handled, every other
tag prints to `sys.stderr` (the message interpolates the type tag of the
connection) and calls `sys.exit(1)`. -/
def map_profile (op : DBTBaseOperator) (conn : Connection) :
    Except CosmosError (String × List (String × String)) :=
  if conn.conn_type = "postgres" then
    .ok ("postgres_profile",
      [("POSTGRES_HOST", conn.host),
        ("POSTGRES_USER", conn.login),
        ("POSTGRES_PASSWORD", conn.password),
        ("POSTGRES_DATABASE", conn.schema),
        ("POSTGRES_PORT", toString conn.port),
        ("POSTGRES_SCHEMA", op.schema)])
  else
    .error (.systemExit ("Connection type " ++ conn.conn_type ++ " is not yet supported.") 1)

/-- The environment handed to the subprocess in `execute`
(operators.py line 216): `self.get_env(context) | profile_vars`, the
right-biased dict merge, so the profile variables win on shared keys. -/
def subprocess_env (op : DBTBaseOperator) (profile_vars : List (String × String))
    (system_env airflow_context_vars : Env) : Env :=
  Env.update (get_env op system_env airflow_context_vars) (Env.ofList profile_vars)

/-- The tail of `run_command`/`execute` (operators.py lines 149-157 and
219-220): classify the subprocess result with `exception_handling`, and
when nothing is raised return `result.output` as the task payload. -/
def run_and_return (skip_exit_code : Option Int) (result : SubprocessResult) :
    Except CosmosError String :=
  match exception_handling skip_exit_code result with
  | .error e => .error e
  | .ok _ => .ok result.output

/-- The outside world `execute` interacts with: the filesystem, the
inherited process environment, the Airflow context variables, the
connection store behind `BaseHook().get_connection`, and the behaviour of
the launched subprocess. -/
structure World where
  fs : FileSystem
  system_env : Env
  airflow_context_vars : Env
  connections : String → Option Connection
  run : List String → Env → SubprocessResult

/-- `DBTBaseOperator.execute` (operators.py lines 213-220): ensure the
default profiles file, resolve the connection and map it to a profile,
merge the environment, build the command with `["--profile", profile]`
appended, run it and classify the result. -/
def execute (op : DBTBaseOperator) (w : World) : Except CosmosError String :=
  let fs := create_default_profiles w.fs
  match w.connections op.conn_id with
  | none => .error (.airflowException ("The conn_id `" ++ op.conn_id ++ "` is not defined"))
  | some conn =>
    match map_profile op conn with
    | .error e => .error e
    | .ok (profile, profile_vars) =>
      let env := subprocess_env op profile_vars w.system_env w.airflow_context_vars
      let target_flag := ["--profile", profile]
      match build_command op fs with
      | .error e => .error e
      | .ok base => run_and_return op.skip_exit_code (w.run (base ++ target_flag) env)

/-- Modelled from the spec: `retrieve_by_label` (imported from
`cosmos.dbt.selector`) is not part of this repository snapshot.  The spec
describes the selector mini-language as label-prefixed strings
(`tag:<value>`, `path:<value>`, and similar forms) grouped by label
category (`tags`, `paths`); accordingly the helper returns the values of
the statements carrying the label prefix of the category (category name minus
its trailing `s`). -/
def retrieve_by_label (statements : List String) (field : String) : List String :=
  let label := String.mk field.data.dropLast
  let prefix_chars := (label ++ ":").data
  statements.filterMap (fun s =>
    if s.data.take prefix_chars.length = prefix_chars
    then some (String.mk (s.data.drop prefix_chars.length)) else none)

/-- The body of the `for field in ("tags", "paths")` loop of
`validate_arguments` (converter.py lines 67-72): the intersection of the
two retrieved item sets must be empty, otherwise an `AirflowException` is
raised (set intersection embedded as a duplicate-keeping filter — empty
for the set exactly when empty for the filter; the message drops the
Python `repr` of the interpolated set). -/
def check_field (select exclude : List String) (field : String) : Except CosmosError Unit :=
  let select_items := retrieve_by_label select field
  let exclude_items := retrieve_by_label exclude field
  let intersection := select_items.filter (fun i => exclude_items.contains i)
  if intersection.isEmpty then .ok ()
  else .error (.airflowException
    ("Can not specify the same " ++ field.dropRight 1 ++ " in `select` and `exclude`: " ++
      String.intercalate ", " intersection))

/-- `validate_arguments` (converter.py lines 57-76): the label-overlap
check for `tags` then `paths`, then the deprecated `schema` task argument
check (`task_args` embedded by its key list, the only thing the source
inspects). -/
def validate_arguments (select exclude : List String) (task_args_keys : List String) :
    Except CosmosError Unit :=
  match check_field select exclude "tags" with
  | .error e => .error e
  | .ok _ =>
    match check_field select exclude "paths" with
    | .error e => .error e
    | .ok _ =>
      if task_args_keys.contains "schema" then
        .error (.airflowException
          "The `schema` argument is no longer supported. Please use the `profile_args` instead.")
      else .ok ()

/-- The validation/graph-building stage of `DbtToAirflowConverter.__init__`
(converter.py lines 179-191): `validate_arguments` runs before
`build_airflow_graph`, so no task object is created when validation
raises.  `build_airflow_graph` lives outside this snapshot; the task
objects it would register are abstracted as `built_tasks`. -/
def converter_tasks (select exclude : List String) (task_args_keys : List String)
    (built_tasks : List String) : Except CosmosError (List String) :=
  match validate_arguments select exclude task_args_keys with
  | .error e => .error e
  | .ok _ => .ok built_tasks

/-- The `--flag value` pair a value-carrying field contributes: present
exactly when the field is not `None` (the loop body at operators.py
lines 123-128, denotationally). -/
def value_flag_tokens (field : String) (v : Option String) : List String :=
  match v with
  | some x => [dbt_flag_name field, x]
  | none => []

/-- The bare flag a boolean field contributes: present exactly when the
field is `True` (the loop body at operators.py lines 137-141,
denotationally). -/
def bool_flag_tokens (field : String) (b : Bool) : List String :=
  if b then [dbt_flag_name field] else []

/-- The command-line layout asserted by claim C1, written from the words of
the spec: the value-carrying flags in the fixed order `--project-dir`,
`--select`, `--exclude`, `--selector`, `--vars`, `--models` (a
`--flag value` pair only when the field is not `None`), then the boolean
flags `--no-version-check`, `--cache-selected-only`, `--fail-fast`,
`--quiet`, `--warn-error` (a bare flag only when the field is `True`),
and `--profile <name>` as the final two tokens. -/
def claimed_command_layout (op : DBTBaseOperator) (dbt_path profile : String) : List String :=
  [dbt_path, op.base_cmd]
  ++ (match op.project_dir with | some v => ["--project-dir", v] | none => [])
  ++ (match op.select with | some v => ["--select", v] | none => [])
  ++ (match op.exclude with | some v => ["--exclude", v] | none => [])
  ++ (match op.selector with | some v => ["--selector", v] | none => [])
  ++ (match op.vars with | some v => ["--vars", v] | none => [])
  ++ (match op.models with | some v => ["--models", v] | none => [])
  ++ (if op.no_version_check then ["--no-version-check"] else [])
  ++ (if op.cache_selected_only then ["--cache-selected-only"] else [])
  ++ (if op.fail_fast then ["--fail-fast"] else [])
  ++ (if op.quiet then ["--quiet"] else [])
  ++ (if op.warn_error then ["--warn-error"] else [])
  ++ ["--profile", profile]

/-- The environment asserted by claim C4, written from the words of the spec:
the merge of the three layers — process-inherited, user-declared override
map, orchestrator context variables — with the later layers overriding
the earlier ones on shared keys. -/
def claimed_merged_env (op : DBTBaseOperator) (system_env airflow_context_vars : Env) : Env :=
  Env.update (Env.update system_env (op.env.getD (fun _ => none))) airflow_context_vars

theorem foldl_value_flags (l : List (String × Option String)) (acc : List String) :
    l.foldl (fun flags fv =>
      match fv.2 with
      | some value => flags ++ [dbt_flag_name fv.1, value]
      | none => flags) acc
    = acc ++ (l.map (fun fv => value_flag_tokens fv.1 fv.2)).flatten := by
  induction l generalizing acc with
  | nil => simp
  | cons a t ih =>
    cases h : a.2 with
    | some v => simp [List.foldl_cons, ih, value_flag_tokens, h, List.append_assoc]
    | none => simp [List.foldl_cons, ih, value_flag_tokens, h]

theorem foldl_bool_flags (l : List (String × Bool)) (acc : List String) :
    l.foldl (fun flags fb =>
      if fb.2 then flags ++ [dbt_flag_name fb.1] else flags) acc
    = acc ++ (l.map (fun fb => bool_flag_tokens fb.1 fb.2)).flatten := by
  induction l generalizing acc with
  | nil => simp
  | cons a t ih =>
    cases h : a.2 with
    | true => simp [List.foldl_cons, ih, bool_flag_tokens, h, List.append_assoc]
    | false => simp [List.foldl_cons, ih, bool_flag_tokens, h]

theorem add_global_flags_eq (op : DBTBaseOperator) :
    add_global_flags op =
      value_flag_tokens "project_dir" op.project_dir
      ++ value_flag_tokens "select" op.select
      ++ value_flag_tokens "exclude" op.exclude
      ++ value_flag_tokens "selector" op.selector
      ++ value_flag_tokens "vars" op.vars
      ++ value_flag_tokens "models" op.models
      ++ bool_flag_tokens "no_version_check" op.no_version_check
      ++ bool_flag_tokens "cache_selected_only" op.cache_selected_only
      ++ bool_flag_tokens "fail_fast" op.fail_fast
      ++ bool_flag_tokens "quiet" op.quiet
      ++ bool_flag_tokens "warn_error" op.warn_error := by
  unfold add_global_flags
  dsimp only
  rw [foldl_value_flags, foldl_bool_flags]
  simp [List.append_assoc]

@[simp] theorem dbt_flag_name_project_dir : dbt_flag_name "project_dir" = "--project-dir" := rfl

@[simp] theorem dbt_flag_name_select : dbt_flag_name "select" = "--select" := rfl

@[simp] theorem dbt_flag_name_exclude : dbt_flag_name "exclude" = "--exclude" := rfl

@[simp] theorem dbt_flag_name_selector : dbt_flag_name "selector" = "--selector" := rfl

@[simp] theorem dbt_flag_name_vars : dbt_flag_name "vars" = "--vars" := rfl

@[simp] theorem dbt_flag_name_models : dbt_flag_name "models" = "--models" := rfl

@[simp] theorem dbt_flag_name_no_version_check :
    dbt_flag_name "no_version_check" = "--no-version-check" := rfl

@[simp] theorem dbt_flag_name_cache_selected_only :
    dbt_flag_name "cache_selected_only" = "--cache-selected-only" := rfl

@[simp] theorem dbt_flag_name_fail_fast : dbt_flag_name "fail_fast" = "--fail-fast" := rfl

@[simp] theorem dbt_flag_name_quiet : dbt_flag_name "quiet" = "--quiet" := rfl

@[simp] theorem dbt_flag_name_warn_error : dbt_flag_name "warn_error" = "--warn-error" := rfl

theorem value_tokens_project_dir (v : Option String) :
    value_flag_tokens "project_dir" v
    = (match v with | some x => ["--project-dir", x] | none => []) := by
  cases v <;> simp [value_flag_tokens]

theorem value_tokens_select (v : Option String) :
    value_flag_tokens "select" v
    = (match v with | some x => ["--select", x] | none => []) := by
  cases v <;> simp [value_flag_tokens]

theorem value_tokens_exclude (v : Option String) :
    value_flag_tokens "exclude" v
    = (match v with | some x => ["--exclude", x] | none => []) := by
  cases v <;> simp [value_flag_tokens]

theorem value_tokens_selector (v : Option String) :
    value_flag_tokens "selector" v
    = (match v with | some x => ["--selector", x] | none => []) := by
  cases v <;> simp [value_flag_tokens]

theorem value_tokens_vars (v : Option String) :
    value_flag_tokens "vars" v
    = (match v with | some x => ["--vars", x] | none => []) := by
  cases v <;> simp [value_flag_tokens]

theorem value_tokens_models (v : Option String) :
    value_flag_tokens "models" v
    = (match v with | some x => ["--models", x] | none => []) := by
  cases v <;> simp [value_flag_tokens]

theorem bool_tokens_no_version_check (b : Bool) :
    bool_flag_tokens "no_version_check" b = (if b then ["--no-version-check"] else []) := by
  cases b <;> simp [bool_flag_tokens]

theorem bool_tokens_cache_selected_only (b : Bool) :
    bool_flag_tokens "cache_selected_only" b = (if b then ["--cache-selected-only"] else []) := by
  cases b <;> simp [bool_flag_tokens]

theorem bool_tokens_fail_fast (b : Bool) :
    bool_flag_tokens "fail_fast" b = (if b then ["--fail-fast"] else []) := by
  cases b <;> simp [bool_flag_tokens]

theorem bool_tokens_quiet (b : Bool) :
    bool_flag_tokens "quiet" b = (if b then ["--quiet"] else []) := by
  cases b <;> simp [bool_flag_tokens]

theorem bool_tokens_warn_error (b : Bool) :
    bool_flag_tokens "warn_error" b = (if b then ["--warn-error"] else []) := by
  cases b <;> simp [bool_flag_tokens]

theorem get_dbt_path_ok (op : DBTBaseOperator) (fs : FileSystem) (d : String)
    (h : get_dbt_path op fs = .ok d) : d = fs.which_dbt.getD "dbt" := by
  unfold get_dbt_path at h
  cases hp : op.project_dir with
  | none => rw [hp] at h; simp at h; exact h.symm
  | some p =>
    rw [hp] at h
    repeat' split at h
    all_goals simp_all

/-- C2 (amended): for every configured skip code and every subprocess
result, an exit code equal to the configured skip code raises the skip
signal; any other non-zero exit code raises the failure signal; exit code
zero raises nothing and `execute` returns the captured standard output —
unless the configured skip code is itself zero, in which case exit code
zero raises the skip signal instead. -/
theorem c2_exit_code_classification (skip : Option Int) (r : SubprocessResult) :
    (skip = some r.exit_code →
      ∃ m, run_and_return skip r = .error (.airflowSkip m))
    ∧ (skip ≠ some r.exit_code → r.exit_code ≠ 0 →
      ∃ m, run_and_return skip r = .error (.airflowException m))
    ∧ (r.exit_code = 0 → skip ≠ some 0 →
      run_and_return skip r = .ok r.output) := by
  refine ⟨?_, ?_, ?_⟩
  · intro h
    exact ⟨"dbt command returned exit code " ++ toString r.exit_code ++ ". Skipping.",
      by simp [run_and_return, exception_handling, h]⟩
  · intro h1 h2
    exact ⟨"dbt command failed. The command returned a non-zero exit code " ++
        toString r.exit_code ++ ".",
      by simp [run_and_return, exception_handling, h1, h2]⟩
  · intro h1 h2
    simp [run_and_return, exception_handling, h1, h2]

/-- C2 counterexample: with the skip exit code configured to `0`, a
subprocess exit code of `0` raises the skip signal, where the claim as
stated says exit code zero raises nothing and yields the output. -/
theorem c2_zero_skip_code_counterexample :
    run_and_return (some 0) { exit_code := 0, output := "out" } =
      .error (.airflowSkip "dbt command returned exit code 0. Skipping.") := by
  rfl

/-- Witness for C2: with the default skip code 99, exit 99 skips, exit 2
fails, exit 0 succeeds with the captured output. -/
theorem c2_exit_code_classification_witness :
    (∃ m, run_and_return (some 99) { exit_code := 99, output := "o" } =
      .error (.airflowSkip m))
    ∧ (∃ m, run_and_return (some 99) { exit_code := 2, output := "o" } =
      .error (.airflowException m))
    ∧ run_and_return (some 99) { exit_code := 0, output := "o" } = .ok "o" :=
  ⟨(c2_exit_code_classification (some 99) ⟨99, "o"⟩).1 rfl,
   (c2_exit_code_classification (some 99) ⟨2, "o"⟩).2.1 (by decide) (by decide),
   (c2_exit_code_classification (some 99) ⟨0, "o"⟩).2.2 rfl (by decide)⟩

/-- C10: with `skip_exit_code` set to `None`, skip classification is
disabled: every non-zero exit code raises the failure signal, no exit
code raises the skip signal, and exit code zero returns the captured
output. -/
theorem c10_skip_disabled (r : SubprocessResult) :
    (r.exit_code ≠ 0 → ∃ m, exception_handling none r = .error (.airflowException m))
    ∧ (∀ m, exception_handling none r ≠ .error (.airflowSkip m))
    ∧ (r.exit_code = 0 → run_and_return none r = .ok r.output) := by
  refine ⟨?_, ?_, ?_⟩
  · intro h
    exact ⟨"dbt command failed. The command returned a non-zero exit code " ++
        toString r.exit_code ++ ".",
      by simp [exception_handling, h]⟩
  · intro m
    by_cases h : r.exit_code = 0 <;> simp [exception_handling, h]
  · intro h
    simp [run_and_return, exception_handling, h]

/-- Witness for C10: with skip disabled, exit 99 fails (instead of
skipping) and exit 0 succeeds. -/
theorem c10_skip_disabled_witness :
    (∃ m, exception_handling none { exit_code := 99, output := "o" } =
      .error (.airflowException m))
    ∧ run_and_return none { exit_code := 0, output := "o" } = .ok "o" :=
  ⟨(c10_skip_disabled ⟨99, "o"⟩).1 (by decide),
   (c10_skip_disabled ⟨0, "o"⟩).2.2 rfl⟩

/-- C7: credential resolution handles exactly the `postgres` connection
kind, returning the profile name and the derived key/value pairs; every
other connection kind is reported to the standard error stream and the
process exits with the non-zero code 1. -/
theorem c7_connection_dispatch (op : DBTBaseOperator) (conn : Connection) :
    (conn.conn_type = "postgres" →
      map_profile op conn = .ok ("postgres_profile",
        [("POSTGRES_HOST", conn.host),
          ("POSTGRES_USER", conn.login),
          ("POSTGRES_PASSWORD", conn.password),
          ("POSTGRES_DATABASE", conn.schema),
          ("POSTGRES_PORT", toString conn.port),
          ("POSTGRES_SCHEMA", op.schema)]))
    ∧ (conn.conn_type ≠ "postgres" →
      map_profile op conn = .error
        (.systemExit ("Connection type " ++ conn.conn_type ++ " is not yet supported.") 1)
      ∧ (1 : Int) ≠ 0) := by
  constructor
  · intro h
    simp [map_profile, h]
  · intro h
    refine ⟨by simp [map_profile, h], by decide⟩

/-- Witness for C7: a postgres connection resolves; a sqlite connection
exits with code 1 after the stderr report. -/
theorem c7_connection_dispatch_witness :
    map_profile { project_dir := some "/x", conn_id := "c", base_cmd := "run", schema := "public" }
        { conn_type := "postgres", host := "h", login := "u", password := "pw",
          schema := "db", port := 5432 } =
      .ok ("postgres_profile",
        [("POSTGRES_HOST", "h"), ("POSTGRES_USER", "u"), ("POSTGRES_PASSWORD", "pw"),
          ("POSTGRES_DATABASE", "db"), ("POSTGRES_PORT", "5432"), ("POSTGRES_SCHEMA", "public")])
    ∧ map_profile { project_dir := some "/x", conn_id := "c", base_cmd := "run" }
        { conn_type := "sqlite", host := "h", login := "u", password := "pw",
          schema := "db", port := 0 } =
      .error (.systemExit "Connection type sqlite is not yet supported." 1) :=
  ⟨(c7_connection_dispatch _ _).1 rfl,
   ((c7_connection_dispatch _ _).2 (by decide)).1⟩

theorem profiles_file_ne_dir : profiles_file ≠ profiles_directory := by decide

theorem profiles_dir_ne_file : profiles_directory ≠ profiles_file := by decide

theorem ensure_dir_files (fs : FileSystem) (q : String) :
    (ensure_profiles_directory fs).files q = fs.files q := by
  unfold ensure_profiles_directory
  split <;> rfl

theorem ensure_dir_path_exists_file (fs : FileSystem) :
    (ensure_profiles_directory fs).path_exists profiles_file = fs.path_exists profiles_file := by
  unfold ensure_profiles_directory FileSystem.path_exists
  split
  · rfl
  · simp [profiles_file_ne_dir]

theorem ensure_dir_path_exists_dir (fs : FileSystem) :
    (ensure_profiles_directory fs).path_exists profiles_directory = true := by
  unfold ensure_profiles_directory
  by_cases h : fs.path_exists profiles_directory = true
  · simp [h]
  · simp only [h, Bool.false_eq_true, if_false]
    simp [FileSystem.path_exists]

theorem write_file_path_exists_dir (fs : FileSystem) :
    (write_default_profiles_file fs).path_exists profiles_directory =
      fs.path_exists profiles_directory := by
  unfold write_default_profiles_file FileSystem.path_exists
  split
  · rfl
  · simp [profiles_dir_ne_file]

theorem write_file_path_exists_file (fs : FileSystem) :
    (write_default_profiles_file fs).path_exists profiles_file = true := by
  unfold write_default_profiles_file
  by_cases h : fs.path_exists profiles_file = true
  · simp [h]
  · simp only [h, Bool.false_eq_true, if_false]
    simp [FileSystem.path_exists]

/-- C6: the default profiles file at `/home/astro/.dbt/profiles.yml` is
written only when absent — an existing file keeps its contents, a missing
file is created with the default postgres profile — and running
`create_default_profiles` twice equals running it once. -/
theorem c6_profiles_file_write_once (fs : FileSystem) :
    (∀ c, fs.files profiles_file = some c →
      (create_default_profiles fs).files profiles_file = some c)
    ∧ (fs.path_exists profiles_file = false →
      (create_default_profiles fs).files profiles_file = some default_profiles_yaml)
    ∧ create_default_profiles (create_default_profiles fs) = create_default_profiles fs := by
  refine ⟨?_, ?_, ?_⟩
  · intro c hc
    have hf : fs.path_exists profiles_file = true := by
      simp [FileSystem.path_exists, hc]
    unfold create_default_profiles write_default_profiles_file
    rw [ensure_dir_path_exists_file, hf]
    simp [ensure_dir_files, hc]
  · intro hf
    unfold create_default_profiles write_default_profiles_file
    rw [ensure_dir_path_exists_file, hf]
    simp
  · have kd : ∀ g : FileSystem, g.path_exists profiles_directory = true →
        g.path_exists profiles_file = true → create_default_profiles g = g := by
      intro g h1 h2
      unfold create_default_profiles ensure_profiles_directory write_default_profiles_file
      simp [h1, h2]
    refine kd _ ?_ ?_
    · rw [create_default_profiles, write_file_path_exists_dir]
      exact ensure_dir_path_exists_dir fs
    · rw [create_default_profiles]
      exact write_file_path_exists_file _

/-- Witness for C6: on a filesystem already holding `profiles.yml` the
contents are kept; on an empty filesystem the default profile is
written. -/
theorem c6_profiles_file_write_once_witness :
    (create_default_profiles
        { files := fun q => if q = profiles_file then some "keep" else none,
          dirs := fun _ => false, which_dbt := none }).files profiles_file = some "keep"
    ∧ (create_default_profiles
        { files := fun _ => none, dirs := fun _ => false,
          which_dbt := none }).files profiles_file = some default_profiles_yaml :=
  ⟨(c6_profiles_file_write_once _).1 "keep" (by simp),
   (c6_profiles_file_write_once _).2.1 (by simp [FileSystem.path_exists])⟩

/-- C8: with a configured project path, command building raises an
environment error exactly when the path is missing or exists but is not a
directory; otherwise it succeeds and the resolved dbt executable path
(`shutil.which("dbt") or "dbt"`) is the first command token. -/
theorem c8_project_dir_check (op : DBTBaseOperator) (fs : FileSystem) (p : String)
    (h : op.project_dir = some p) :
    ((∃ m, build_command op fs = .error (.airflowException m)) ↔
      (fs.path_exists p = false ∨ (fs.path_exists p = true ∧ fs.dirs p = false)))
    ∧ (fs.path_exists p = true → fs.dirs p = true →
      build_command op fs = .ok
        (fs.which_dbt.getD "dbt" :: op.base_cmd :: add_global_flags op)) := by
  by_cases hpe : fs.path_exists p = true <;> by_cases hd : fs.dirs p = true
  · constructor
    · simp [build_command, get_dbt_path, h, hpe, hd]
    · intro _ _
      simp [build_command, get_dbt_path, h, hpe, hd]
  · constructor
    · simp [build_command, get_dbt_path, h, hpe, hd]
    · intro _ hd'
      exact absurd hd' hd
  · exact absurd (by simp [FileSystem.path_exists, hd]) hpe
  · constructor
    · simp [build_command, get_dbt_path, h, hpe, hd]
    · intro hpe' _
      exact absurd hpe' hpe

/-- Witness for C8: a missing path errors; an existing directory builds a
command whose first token is the resolved dbt path. -/
theorem c8_project_dir_check_witness :
    (∃ m, build_command { project_dir := some "/nope", conn_id := "c", base_cmd := "run" }
        { files := fun _ => none, dirs := fun _ => false, which_dbt := some "/bin/dbt" } =
      .error (.airflowException m))
    ∧ build_command { project_dir := some "/x", conn_id := "c", base_cmd := "run" }
        { files := fun _ => none, dirs := fun q => q == "/x", which_dbt := some "/bin/dbt" } =
      .ok ["/bin/dbt", "run", "--project-dir", "/x"] :=
  ⟨(c8_project_dir_check _ _ "/nope" rfl).1.mpr (Or.inl (by decide)),
   (c8_project_dir_check _ _ "/x" rfl).2 (by decide) (by decide)⟩

/-- C4 counterexample: with a user env map declared and `append_env` left
at its default `False`, a key present only in the process-inherited
environment is absent from the environment handed to the subprocess,
while the claimed three-layer merge would keep it. -/
theorem c4_dropped_inherited_env_counterexample :
    get_env
        { project_dir := some "/x", conn_id := "c", base_cmd := "run",
          env := some (fun q => if q = "USER_KEY" then some "u" else none) }
        (fun q => if q = "SYS_ONLY" then some "s" else none)
        (fun _ => none) "SYS_ONLY" = none
    ∧ claimed_merged_env
        { project_dir := some "/x", conn_id := "c", base_cmd := "run",
          env := some (fun q => if q = "USER_KEY" then some "u" else none) }
        (fun q => if q = "SYS_ONLY" then some "s" else none)
        (fun _ => none) "SYS_ONLY" = some "s" :=
  ⟨rfl, rfl⟩

/-- C4 (amended): Airflow context variables always take precedence; below
them, the inherited environment is used alone when no user env map is
declared; a declared user map is layered over the inherited environment
when `append_env` is true, and replaces it entirely when `append_env` is
false (the default). -/
theorem c4_env_layering (op : DBTBaseOperator) (system_env airflow_context_vars : Env)
    (k : String) :
    (∀ v, airflow_context_vars k = some v →
      get_env op system_env airflow_context_vars k = some v)
    ∧ (airflow_context_vars k = none → op.env = none →
      get_env op system_env airflow_context_vars k = system_env k)
    ∧ (airflow_context_vars k = none → ∀ e, op.env = some e →
      (op.append_env = true →
        get_env op system_env airflow_context_vars k = Env.update system_env e k)
      ∧ (op.append_env = false →
        get_env op system_env airflow_context_vars k = e k)) := by
  refine ⟨?_, ?_, ?_⟩
  · intro v hv
    simp [get_env, Env.update, hv]
  · intro hctx he
    simp [get_env, Env.update, hctx, he]
  · intro hctx e he
    constructor <;> intro ha <;> simp [get_env, Env.update, hctx, he, ha]

/-- Witness for C4: a context variable wins over the user map; with
`append_env` false the user map supplies the non-context keys. -/
theorem c4_env_layering_witness :
    get_env { project_dir := none, conn_id := "c", base_cmd := "run",
              env := some (fun q => if q = "U" then some "uv" else none) }
      (fun _ => none) (fun q => if q = "CTX" then some "cv" else none) "CTX" = some "cv"
    ∧ get_env { project_dir := none, conn_id := "c", base_cmd := "run",
                env := some (fun q => if q = "U" then some "uv" else none) }
      (fun _ => none) (fun q => if q = "CTX" then some "cv" else none) "U" = some "uv" :=
  ⟨(c4_env_layering _ _ _ "CTX").1 "cv" rfl,
   ((c4_env_layering _ _ _ "U").2.2 rfl
     (fun q => if q = "U" then some "uv" else none) rfl).2 rfl⟩

/-- C9 (amended): in the environment handed to the subprocess, the six
credential variables override any same-named keys from the three
environment layers; `POSTGRES_HOST`, `POSTGRES_USER`, `POSTGRES_PASSWORD`,
`POSTGRES_DATABASE` and `POSTGRES_PORT` hold the host, login, password,
schema and stringified port of the connection, while `POSTGRES_SCHEMA`
holds the `schema` argument of the operator itself. -/
theorem c9_credential_vars_override (op : DBTBaseOperator) (conn : Connection)
    (profile : String) (pv : List (String × String)) (system_env airflow_context_vars : Env)
    (h : map_profile op conn = .ok (profile, pv)) :
    subprocess_env op pv system_env airflow_context_vars "POSTGRES_HOST" = some conn.host
    ∧ subprocess_env op pv system_env airflow_context_vars "POSTGRES_USER" = some conn.login
    ∧ subprocess_env op pv system_env airflow_context_vars "POSTGRES_PASSWORD" =
        some conn.password
    ∧ subprocess_env op pv system_env airflow_context_vars "POSTGRES_DATABASE" =
        some conn.schema
    ∧ subprocess_env op pv system_env airflow_context_vars "POSTGRES_PORT" =
        some (toString conn.port)
    ∧ subprocess_env op pv system_env airflow_context_vars "POSTGRES_SCHEMA" =
        some op.schema := by
  unfold map_profile at h
  by_cases hc : conn.conn_type = "postgres"
  · rw [if_pos hc] at h
    have h2 : pv = [("POSTGRES_HOST", conn.host), ("POSTGRES_USER", conn.login),
        ("POSTGRES_PASSWORD", conn.password), ("POSTGRES_DATABASE", conn.schema),
        ("POSTGRES_PORT", toString conn.port), ("POSTGRES_SCHEMA", op.schema)] := by
      injection h with h'
      exact (congrArg Prod.snd h').symm
    subst h2
    refine ⟨?_, ?_, ?_, ?_, ?_, ?_⟩ <;>
      simp [subprocess_env, Env.update, Env.ofList, List.find?]
  · rw [if_neg hc] at h
    simp at h

/-- C9 counterexample: `POSTGRES_SCHEMA` in the final environment holds
the `schema` argument of the operator, a value different from every field of
the resolved connection record — so it is not taken from the connection
record as the claim states. -/
theorem c9_schema_from_operator_counterexample :
    map_profile
        { project_dir := some "/x", conn_id := "c", base_cmd := "run", schema := "opschema" }
        { conn_type := "postgres", host := "h", login := "u", password := "pw",
          schema := "db", port := 5432 } =
      .ok ("postgres_profile",
        [("POSTGRES_HOST", "h"), ("POSTGRES_USER", "u"), ("POSTGRES_PASSWORD", "pw"),
          ("POSTGRES_DATABASE", "db"), ("POSTGRES_PORT", "5432"),
          ("POSTGRES_SCHEMA", "opschema")])
    ∧ subprocess_env
        { project_dir := some "/x", conn_id := "c", base_cmd := "run", schema := "opschema" }
        [("POSTGRES_HOST", "h"), ("POSTGRES_USER", "u"), ("POSTGRES_PASSWORD", "pw"),
          ("POSTGRES_DATABASE", "db"), ("POSTGRES_PORT", "5432"),
          ("POSTGRES_SCHEMA", "opschema")]
        (fun _ => none) (fun _ => none) "POSTGRES_SCHEMA" = some "opschema"
    ∧ ("opschema" ≠ "h" ∧ "opschema" ≠ "u" ∧ "opschema" ≠ "pw" ∧ "opschema" ≠ "db"
        ∧ "opschema" ≠ "5432" ∧ "opschema" ≠ "postgres") :=
  ⟨rfl, rfl, by decide⟩

/-- Witness for C9: the credential variable wins even when the inherited
environment carries a conflicting `POSTGRES_HOST`. -/
theorem c9_credential_vars_override_witness :
    subprocess_env
        { project_dir := some "/x", conn_id := "c", base_cmd := "run", schema := "public" }
        [("POSTGRES_HOST", "h"), ("POSTGRES_USER", "u"), ("POSTGRES_PASSWORD", "pw"),
          ("POSTGRES_DATABASE", "db"), ("POSTGRES_PORT", "5432"),
          ("POSTGRES_SCHEMA", "public")]
        (fun q => if q = "POSTGRES_HOST" then some "shadow" else none) (fun _ => none)
        "POSTGRES_HOST" = some "h" :=
  (c9_credential_vars_override
    { project_dir := some "/x", conn_id := "c", base_cmd := "run", schema := "public" }
    { conn_type := "postgres", host := "h", login := "u", password := "pw",
      schema := "db", port := 5432 }
    "postgres_profile"
    [("POSTGRES_HOST", "h"), ("POSTGRES_USER", "u"), ("POSTGRES_PASSWORD", "pw"),
      ("POSTGRES_DATABASE", "db"), ("POSTGRES_PORT", "5432"), ("POSTGRES_SCHEMA", "public")]
    (fun q => if q = "POSTGRES_HOST" then some "shadow" else none) (fun _ => none) rfl).1

theorem check_field_ok_iff (s e : List String) (f : String) :
    check_field s e f = .ok () ↔
      ∀ x ∈ retrieve_by_label s f, x ∉ retrieve_by_label e f := by
  unfold check_field
  dsimp only
  by_cases h : (List.filter (fun i => (retrieve_by_label e f).contains i)
      (retrieve_by_label s f)).isEmpty = true
  · rw [if_pos h]
    rw [List.isEmpty_iff, List.filter_eq_nil_iff] at h
    constructor
    · intro _ x hx hex
      exact h x hx (List.elem_iff.mpr hex)
    · intro _
      rfl
  · rw [if_neg h]
    constructor
    · intro hcontra
      exact Except.noConfusion hcontra
    · intro hall
      exfalso
      apply h
      rw [List.isEmpty_iff, List.filter_eq_nil_iff]
      intro x hx hcx
      exact hall x hx (List.elem_iff.mp hcx)

theorem check_field_error_of_overlap (s e : List String) (f : String) (x : String)
    (hx : x ∈ retrieve_by_label s f) (hex : x ∈ retrieve_by_label e f) :
    ∃ m, check_field s e f = .error m := by
  have hok : check_field s e f ≠ .ok () := by
    rw [Ne, check_field_ok_iff]
    intro hall
    exact hall x hx hex
  cases hcf : check_field s e f with
  | error m => exact ⟨m, rfl⟩
  | ok u =>
    cases u
    exact absurd hcf hok

/-- C3: if any literal item under the same label category (`tags` or
`paths`) appears in both the `select` and `exclude` lists, validation
raises a configuration error and the converter produces no tasks; without
such an overlap (and without the deprecated `schema` task argument)
validation raises nothing.  (`retrieve_by_label` is modelled from the
spec; its source lives outside this snapshot.) -/
theorem c3_selector_overlap_validation (select exclude task_args_keys built_tasks :
    List String) :
    (((∃ x ∈ retrieve_by_label select "tags", x ∈ retrieve_by_label exclude "tags")
        ∨ (∃ x ∈ retrieve_by_label select "paths", x ∈ retrieve_by_label exclude "paths")) →
      ∃ m, validate_arguments select exclude task_args_keys = .error m
        ∧ converter_tasks select exclude task_args_keys built_tasks = .error m)
    ∧ ((∀ x ∈ retrieve_by_label select "tags", x ∉ retrieve_by_label exclude "tags") →
      (∀ x ∈ retrieve_by_label select "paths", x ∉ retrieve_by_label exclude "paths") →
      task_args_keys.contains "schema" = false →
      validate_arguments select exclude task_args_keys = .ok ()
        ∧ converter_tasks select exclude task_args_keys built_tasks = .ok built_tasks) := by
  constructor
  · intro hov
    have hver : ∃ m, validate_arguments select exclude task_args_keys = .error m := by
      rcases hov with ⟨x, hx, hex⟩ | ⟨x, hx, hex⟩
      · obtain ⟨m, hm⟩ := check_field_error_of_overlap select exclude "tags" x hx hex
        exact ⟨m, by simp [validate_arguments, hm]⟩
      · cases hct : check_field select exclude "tags" with
        | error m => exact ⟨m, by simp [validate_arguments, hct]⟩
        | ok u =>
          cases u
          obtain ⟨m, hm⟩ := check_field_error_of_overlap select exclude "paths" x hx hex
          exact ⟨m, by simp [validate_arguments, hct, hm]⟩
    obtain ⟨m, hm⟩ := hver
    exact ⟨m, hm, by simp [converter_tasks, hm]⟩
  · intro ht hp hs
    have hct : check_field select exclude "tags" = .ok () := (check_field_ok_iff _ _ _).mpr ht
    have hcp : check_field select exclude "paths" = .ok () := (check_field_ok_iff _ _ _).mpr hp
    have hva : validate_arguments select exclude task_args_keys = .ok () := by
      simp only [validate_arguments, hct, hcp, hs, Bool.false_eq_true, if_false]
    exact ⟨hva, by simp [converter_tasks, hva]⟩

/-- Witness for C3: `tag:a` in both lists is rejected (and no tasks are
produced); disjoint tags validate. -/
theorem c3_selector_overlap_validation_witness :
    (∃ m, validate_arguments ["tag:a"] ["tag:a", "path:p"] [] = .error m
      ∧ converter_tasks ["tag:a"] ["tag:a", "path:p"] [] ["t1"] = .error m)
    ∧ (validate_arguments ["tag:a"] ["tag:b"] ["x"] = .ok ()
      ∧ converter_tasks ["tag:a"] ["tag:b"] ["x"] ["t1"] = .ok ["t1"]) :=
  ⟨(c3_selector_overlap_validation ["tag:a"] ["tag:a", "path:p"] [] ["t1"]).1
      (Or.inl ⟨"a", by decide, by decide⟩),
   (c3_selector_overlap_validation ["tag:a"] ["tag:b"] ["x"] ["t1"]).2
      (by decide) (by decide) (by decide)⟩

/-- C1: for every operator configuration whose command build succeeds, the
full command line (with the `["--profile", profile]` appended by `execute`) is
exactly the claimed layout: value-carrying flags in the fixed order
`--project-dir`, `--select`, `--exclude`, `--selector`, `--vars`,
`--models` (pairs emitted only for non-`None` fields), then the boolean
flags `--no-version-check`, `--cache-selected-only`, `--fail-fast`,
`--quiet`, `--warn-error` (emitted only when `True`), then
`--profile <name>` as the last two tokens. -/
theorem c1_flag_order (op : DBTBaseOperator) (fs : FileSystem) (cmd : List String)
    (profile : String) (h : build_command op fs = .ok cmd) :
    cmd ++ ["--profile", profile] =
      claimed_command_layout op (fs.which_dbt.getD "dbt") profile := by
  unfold build_command at h
  cases hg : get_dbt_path op fs with
  | error e =>
    rw [hg] at h
    exact Except.noConfusion h
  | ok d =>
    rw [hg] at h
    have hd := get_dbt_path_ok op fs d hg
    injection h with h'
    subst hd
    rw [← h', add_global_flags_eq]
    rw [value_tokens_project_dir, value_tokens_select, value_tokens_exclude,
      value_tokens_selector, value_tokens_vars, value_tokens_models,
      bool_tokens_no_version_check, bool_tokens_cache_selected_only,
      bool_tokens_fail_fast, bool_tokens_quiet, bool_tokens_warn_error]
    simp [claimed_command_layout, List.append_assoc]

/-- Witness for C1: an operator with every flag field set produces exactly
the claimed layout. -/
theorem c1_flag_order_witness :
    ["dbt", "run", "--project-dir", "/x", "--select", "s", "--exclude", "e",
      "--selector", "l", "--vars", "v", "--models", "m", "--no-version-check",
      "--cache-selected-only", "--fail-fast", "--quiet", "--warn-error"]
      ++ ["--profile", "postgres_profile"] =
    claimed_command_layout
      { project_dir := some "/x", conn_id := "c", base_cmd := "run", select := some "s",
        exclude := some "e", selector := some "l", vars := some "v", models := some "m",
        no_version_check := true, cache_selected_only := true, fail_fast := true,
        quiet := true, warn_error := true }
      "dbt" "postgres_profile" :=
  c1_flag_order
    { project_dir := some "/x", conn_id := "c", base_cmd := "run", select := some "s",
      exclude := some "e", selector := some "l", vars := some "v", models := some "m",
      no_version_check := true, cache_selected_only := true, fail_fast := true,
      quiet := true, warn_error := true }
    { files := fun _ => none, dirs := fun q => q == "/x", which_dbt := none }
    _ "postgres_profile" rfl

/-- C5: with `project_dir="/x"`, `select="tag:a"`, `fail_fast=True` and all
other flag fields at their defaults, the assembled command is exactly
`[dbt_path, base_cmd, "--project-dir", "/x", "--select", "tag:a",
"--fail-fast"]`. -/
theorem c5_example_command (fs : FileSystem) (conn_id base_cmd : String)
    (h : fs.dirs "/x" = true) :
    build_command { project_dir := some "/x", conn_id := conn_id, base_cmd := base_cmd,
                    select := some "tag:a", fail_fast := true } fs =
      .ok [fs.which_dbt.getD "dbt", base_cmd, "--project-dir", "/x", "--select", "tag:a",
        "--fail-fast"] := by
  have hpe : fs.path_exists "/x" = true := by
    simp [FileSystem.path_exists, h]
  have hg : get_dbt_path { project_dir := some "/x", conn_id := conn_id,
                           base_cmd := base_cmd, select := some "tag:a",
                           fail_fast := true } fs =
      .ok (fs.which_dbt.getD "dbt") := by
    simp [get_dbt_path, hpe, h]
  simp [build_command, hg, add_global_flags_eq, value_flag_tokens, bool_flag_tokens]

/-- Witness for C5: the concrete command on a filesystem where `/x` is a
directory. -/
theorem c5_example_command_witness :
    build_command { project_dir := some "/x", conn_id := "c", base_cmd := "run",
                    select := some "tag:a", fail_fast := true }
        { files := fun _ => none, dirs := fun q => q == "/x",
          which_dbt := some "/usr/bin/dbt" } =
      .ok ["/usr/bin/dbt", "run", "--project-dir", "/x", "--select", "tag:a",
        "--fail-fast"] :=
  c5_example_command
    { files := fun _ => none, dirs := fun q => q == "/x", which_dbt := some "/usr/bin/dbt" }
    "c" "run" rfl
